import Mathlib

/-!
Shallow embedding of the wallet-monitor core of the cryptobot2 repository:
the transaction detector (`ActivityAnalyzer._detect_transaction` and
`ActivityAnalyzer.analyze_wallet` in src/activity_analyzer.py), the two PnL
computations (`ActivityAnalyzer.calculate_pnl` in src/activity_analyzer.py and
`AnalyzerExtended.calculate_pnl` / `calculate_total_pnl` in src/analyzer.py),
and the storage queries they use (src/storage.py).

Python floats are modelled as rationals (`Rat`), timestamps as `Int`, and the
wall clock (`datetime.now().timestamp()`) is passed in as an explicit `now`
argument.  Fallible paths return `Option` / `Except`.
-/

/-- ASCII model of Python `str.lower()`, applied by the storage layer to
wallet addresses before keying or querying (stated on the character list so
that it evaluates structurally). -/
def pyLower (s : String) : String := ⟨s.data.map Char.toLower⟩

/-- One entry of the balance list returned by `MoralisAPI.get_token_balances`:
the dict with keys `id`, `symbol`, `chain`, `amount`, `price` consumed by
`ActivityAnalyzer.analyze_wallet`. -/
structure TokenBalance where
  id : String
  symbol : String
  chain : String
  amount : Rat
  price : Rat
deriving DecidableEq, Repr

/-- The stored per-(wallet, token, chain) state, as returned by
`Storage.get_token_state` (src/storage.py lines 148-169). -/
structure TokenState where
  symbol : String
  amount : Rat
  price_usd : Rat
  last_updated : Int
deriving DecidableEq, Repr

/-- The `WalletTransaction` dataclass of src/storage.py lines 8-18. -/
structure WalletTransaction where
  wallet_address : String
  token_id : String
  symbol : String
  chain : String
  amount_change : Rat
  price_usd : Rat
  total_value_usd : Rat
  transaction_type : String
  timestamp : Int
deriving DecidableEq, Repr

/-- The persistent store of src/storage.py: the `token_states` table is keyed
by primary key (wallet_address, token_id, chain) and is modelled as a map from
that key, matching its INSERT OR REPLACE upsert semantics; the `transactions`
table is an append-only log read back ordered by timestamp. -/
structure Storage where
  token_states : String × String × String → Option TokenState
  transactions : List WalletTransaction

/-- `Storage.get_token_state` (src/storage.py lines 148-169): lookup by
(lowercased wallet, token, chain). -/
def Storage.get_token_state (st : Storage) (wallet_address token_id chain : String) :
    Option TokenState :=
  st.token_states (pyLower wallet_address, token_id, chain)

/-- `Storage.update_token_state` (src/storage.py lines 131-146): INSERT OR
REPLACE on the primary key, stamping `last_updated` with the current time. -/
def Storage.update_token_state (st : Storage) (wallet_address token_id symbol chain : String)
    (amount price_usd : Rat) (now : Int) : Storage :=
  { st with token_states := fun key =>
      if key = (pyLower wallet_address, token_id, chain) then
        some { symbol := symbol, amount := amount, price_usd := price_usd, last_updated := now }
      else st.token_states key }

/-- Descending-timestamp order used by the `ORDER BY timestamp DESC` clause of
`Storage.get_recent_transactions`. -/
def ts_desc (a b : WalletTransaction) : Prop := b.timestamp ≤ a.timestamp

instance : DecidableRel ts_desc := fun a b => Int.decLe b.timestamp a.timestamp

/-- Ascending-timestamp order, used only by the specification-side definition
of the total-PnL summation. -/
def ts_asc (a b : WalletTransaction) : Prop := a.timestamp ≤ b.timestamp

instance : DecidableRel ts_asc := fun a b => Int.decLe a.timestamp b.timestamp

/-- The WHERE clause built by `Storage.get_recent_transactions`
(src/storage.py lines 199-216): always filters on the lowercased wallet, and
on token id / transaction type only when those optional arguments are given
(Python truthiness of the optional parameters is modelled by `Option`). -/
def matchesQuery (wallet_address : String) (token_id transaction_type : Option String)
    (t : WalletTransaction) : Bool :=
  t.wallet_address == pyLower wallet_address
    && (match token_id with
        | none => true
        | some tid => t.token_id == tid)
    && (match transaction_type with
        | none => true
        | some ty => t.transaction_type == ty)

/-- `Storage.get_recent_transactions` (src/storage.py lines 190-238):
SELECT ... WHERE (filters) ORDER BY timestamp DESC LIMIT limit.  The SQL sort
is modelled by a stable insertion sort on descending timestamp; the code's
default limit is 100 and every caller in the analyzers uses that default or
passes 100 explicitly. -/
def Storage.get_recent_transactions (st : Storage) (wallet_address : String)
    (token_id transaction_type : Option String) (limit : Nat) : List WalletTransaction :=
  ((st.transactions.filter (matchesQuery wallet_address token_id transaction_type)).insertionSort
    ts_desc).take limit

/-- The hardcoded `SIGNIFICANT_CHANGE_THRESHOLD = 0.001` of
src/activity_analyzer.py line 80. -/
def SIGNIFICANT_CHANGE_THRESHOLD : Rat := 1 / 1000

namespace ActivityAnalyzer

/-- `ActivityAnalyzer._detect_transaction` (src/activity_analyzer.py lines
51-102).  The wall-clock reading `datetime.now().timestamp()` is the explicit
`now` argument.  With no previous state, a positive balance is reported as a
buy of the full amount and a zero balance yields nothing; with a previous
state, the signed delta is compared against `prev_amount * 0.001` (note: the
source multiplies the raw previous amount, it takes no absolute value), and a
significant delta is reported with its absolute value and the kind chosen by
its sign. -/
def detect_transaction (wallet_address : String) (current_balance : TokenBalance)
    (prev_state : Option TokenState) (now : Int) : Option WalletTransaction :=
  match prev_state with
  | none =>
    if current_balance.amount > 0 then
      some { wallet_address := wallet_address
             token_id := current_balance.id
             symbol := current_balance.symbol
             chain := current_balance.chain
             amount_change := current_balance.amount
             price_usd := current_balance.price
             total_value_usd := current_balance.amount * current_balance.price
             transaction_type := "buy"
             timestamp := now }
    else none
  | some prev =>
    let prev_amount := prev.amount
    let amount_change := current_balance.amount - prev_amount
    if |amount_change| > prev_amount * SIGNIFICANT_CHANGE_THRESHOLD then
      let transaction_type := if amount_change > 0 then "buy" else "sell"
      let amount_change_abs := |amount_change|
      some { wallet_address := wallet_address
             token_id := current_balance.id
             symbol := current_balance.symbol
             chain := current_balance.chain
             amount_change := amount_change_abs
             price_usd := current_balance.price
             total_value_usd := amount_change_abs * current_balance.price
             transaction_type := transaction_type
             timestamp := now }
    else none

end ActivityAnalyzer

/-- Sample balance: 2.0 units of token "t" at price 100, as in the spec's
concrete scenario for poll 1. -/
def balNew : TokenBalance := { id := "t", symbol := "T", chain := "eth", amount := 2, price := 100 }

/-- Sample balance with zero quantity (a brand-new token with nothing held). -/
def balZero : TokenBalance := { id := "t", symbol := "T", chain := "eth", amount := 0, price := 100 }

/-- Sample snapshot for poll 2 of the spec's concrete scenario: 1.0 unit at
price 120. -/
def balDrop : TokenBalance := { id := "t", symbol := "T", chain := "eth", amount := 1, price := 120 }

/-- Sample prior state holding 2.0 units bought at price 100. -/
def statePrev : TokenState := { symbol := "T", amount := 2, price_usd := 100, last_updated := 0 }

/-- Prior state with quantity exactly zero. -/
def stateZero : TokenState := { symbol := "T", amount := 0, price_usd := 100, last_updated := 0 }

/-- Prior state with a negative quantity. -/
def stateNeg : TokenState := { symbol := "T", amount := -1, price_usd := 1, last_updated := 0 }

/-- Snapshot whose quantity equals the negative prior quantity of `stateNeg`. -/
def balNeg : TokenBalance := { id := "t", symbol := "T", chain := "eth", amount := -1, price := 1 }

/-- C3: with no prior state, a snapshot with positive quantity is detected as
a buy of the full quantity priced at the snapshot price with total value
quantity times price, and a snapshot with zero quantity yields nothing. -/
theorem detect_no_prior (w : String) (s : TokenBalance) (now : Int) :
    (0 < s.amount →
      ActivityAnalyzer.detect_transaction w s none now =
        some { wallet_address := w, token_id := s.id, symbol := s.symbol, chain := s.chain,
               amount_change := s.amount, price_usd := s.price,
               total_value_usd := s.amount * s.price, transaction_type := "buy",
               timestamp := now }) ∧
    (s.amount = 0 →
      ActivityAnalyzer.detect_transaction w s none now = none) := by
  constructor
  · intro h
    simp [ActivityAnalyzer.detect_transaction, h]
  · intro h
    simp [ActivityAnalyzer.detect_transaction, h]

/-- C3 witness: the theorem evaluated on concrete snapshots with quantity 2
(price 100) and quantity 0. -/
theorem detect_no_prior_witness :
    ActivityAnalyzer.detect_transaction "w" balNew none 5 =
      some { wallet_address := "w", token_id := balNew.id, symbol := balNew.symbol,
             chain := balNew.chain, amount_change := balNew.amount, price_usd := balNew.price,
             total_value_usd := balNew.amount * balNew.price, transaction_type := "buy",
             timestamp := 5 } ∧
    ActivityAnalyzer.detect_transaction "w" balZero none 5 = none :=
  ⟨(detect_no_prior "w" balNew 5).1 (by norm_num [balNew]),
   (detect_no_prior "w" balZero 5).2 rfl⟩

/-- C4: with a prior state, whenever the absolute signed delta exceeds the
significance threshold, a transaction is returned whose magnitude is the
absolute delta, whose kind follows the sign of the delta, whose unit price is
the snapshot price, and whose total value is magnitude times unit price. -/
theorem detect_significant_change (w : String) (s : TokenBalance) (p : TokenState) (now : Int)
    (h : |s.amount - p.amount| > p.amount * SIGNIFICANT_CHANGE_THRESHOLD) :
    ∃ tx, ActivityAnalyzer.detect_transaction w s (some p) now = some tx ∧
      tx.amount_change = |s.amount - p.amount| ∧
      (0 < s.amount - p.amount → tx.transaction_type = "buy") ∧
      (s.amount - p.amount < 0 → tx.transaction_type = "sell") ∧
      tx.price_usd = s.price ∧
      tx.total_value_usd = tx.amount_change * tx.price_usd := by
  simp only [ActivityAnalyzer.detect_transaction]
  rw [if_pos h]
  refine ⟨_, rfl, rfl, ?_, ?_, rfl, rfl⟩
  · intro hpos
    simp only [if_pos hpos]
  · intro hneg
    simp only [if_neg (not_lt.mpr (le_of_lt hneg))]

/-- C4 witness: the theorem evaluated on the spec's poll-2 scenario (prior
quantity 2, snapshot quantity 1 at price 120). -/
theorem detect_significant_change_witness :
    ∃ tx, ActivityAnalyzer.detect_transaction "w" balDrop (some statePrev) 9 = some tx ∧
      tx.amount_change = |balDrop.amount - statePrev.amount| ∧
      (0 < balDrop.amount - statePrev.amount → tx.transaction_type = "buy") ∧
      (balDrop.amount - statePrev.amount < 0 → tx.transaction_type = "sell") ∧
      tx.price_usd = balDrop.price ∧
      tx.total_value_usd = tx.amount_change * tx.price_usd :=
  detect_significant_change "w" balDrop statePrev 9
    (by norm_num [balDrop, statePrev, SIGNIFICANT_CHANGE_THRESHOLD])

/-- C5: with a positive prior quantity, a quantity change of at most the
prior quantity times the significant-change fraction is suppressed as noise. -/
theorem detect_noise_suppression (w : String) (s : TokenBalance) (p : TokenState) (now : Int)
    (_hP : 0 < p.amount)
    (h : |s.amount - p.amount| ≤ p.amount * SIGNIFICANT_CHANGE_THRESHOLD) :
    ActivityAnalyzer.detect_transaction w s (some p) now = none := by
  simp only [ActivityAnalyzer.detect_transaction]
  rw [if_neg (not_lt.mpr h)]

/-- C5 witness: prior quantity 1000, snapshot quantity 1000.5 (delta 0.5, at
the threshold 1000 * 0.001 = 1), no transaction. -/
theorem detect_noise_suppression_witness :
    ActivityAnalyzer.detect_transaction "w"
      { id := "t", symbol := "T", chain := "eth", amount := 2001 / 2, price := 100 }
      (some { symbol := "T", amount := 1000, price_usd := 100, last_updated := 0 }) 3 = none :=
  detect_noise_suppression "w"
    { id := "t", symbol := "T", chain := "eth", amount := 2001 / 2, price := 100 }
    { symbol := "T", amount := 1000, price_usd := 100, last_updated := 0 } 3
    (by norm_num) (by norm_num [SIGNIFICANT_CHANGE_THRESHOLD, abs_le])

/-- C6: every transaction the detector produces, on either path, has a
non-negative magnitude and a total value equal to magnitude times unit
price. -/
theorem detect_transaction_invariant (w : String) (s : TokenBalance) (p : Option TokenState)
    (now : Int) (tx : WalletTransaction)
    (h : ActivityAnalyzer.detect_transaction w s p now = some tx) :
    0 ≤ tx.amount_change ∧ tx.total_value_usd = tx.amount_change * tx.price_usd := by
  cases p with
  | none =>
    simp only [ActivityAnalyzer.detect_transaction] at h
    split at h
    · cases h
      exact ⟨le_of_lt (by assumption), rfl⟩
    · cases h
  | some prev =>
    simp only [ActivityAnalyzer.detect_transaction] at h
    split at h
    · cases h
      exact ⟨abs_nonneg _, rfl⟩
    · cases h

/-- C6 witness: the invariant holds for the concrete buy produced from
`balNew` with no prior state. -/
theorem detect_transaction_invariant_witness :
    (0 : Rat) ≤ (2 : Rat) ∧ (200 : Rat) = 2 * 100 :=
  detect_transaction_invariant "w" balNew none 5
    { wallet_address := "w", token_id := "t", symbol := "T", chain := "eth",
      amount_change := 2, price_usd := 100, total_value_usd := 200,
      transaction_type := "buy", timestamp := 5 }
    (by norm_num [ActivityAnalyzer.detect_transaction, balNew])

/-- C7 counterexample: with a negative prior quantity (here -1) the detector
is not guarded by an absolute value; the threshold is negative, so a snapshot
whose quantity equals the prior quantity still produces a transaction,
contradicting the claim that one is emitted exactly when the quantities
differ. -/
theorem detect_negative_prior_counterexample :
    balNeg.amount = stateNeg.amount ∧
    ActivityAnalyzer.detect_transaction "w" balNeg (some stateNeg) 0 ≠ none := by
  refine ⟨rfl, ?_⟩
  norm_num [ActivityAnalyzer.detect_transaction, balNeg, stateNeg, SIGNIFICANT_CHANGE_THRESHOLD]
  exact Option.some_ne_none _

/-- C7 amended: for a prior quantity of exactly zero, the threshold is zero
(computed by multiplication, with no division by the prior quantity), and the
decision degenerates to the absolute delta: a transaction is emitted exactly
when the snapshot quantity differs from the prior quantity. -/
theorem detect_zero_prior (w : String) (s : TokenBalance) (p : TokenState) (now : Int)
    (h : p.amount = 0) :
    ActivityAnalyzer.detect_transaction w s (some p) now ≠ none ↔ s.amount ≠ p.amount := by
  simp only [ActivityAnalyzer.detect_transaction, h]
  by_cases hs : s.amount = 0
  · rw [if_neg]
    · simp [hs]
    · rw [hs]
      simp
  · rw [if_pos]
    · simp [hs]
    · rw [sub_zero, zero_mul]
      exact abs_pos.mpr hs

/-- C7 witness: with the zero prior state and snapshot quantity 2 ≠ 0 the
detector emits a transaction. -/
theorem detect_zero_prior_witness :
    ActivityAnalyzer.detect_transaction "w" balNew (some stateZero) 0 ≠ none :=
  (detect_zero_prior "w" balNew stateZero 0 rfl).mpr (by norm_num [balNew, stateZero])

/-- C9 counterexample: the detector stamps the transaction with the wall-clock
reading taken during the call, so two calls with identical (snapshot, prior)
pairs made at different instants return different results — the result is not
a function of (snapshot, prior) alone. -/
theorem detect_clock_dependence :
    ActivityAnalyzer.detect_transaction "w" balNew none 0 ≠
      ActivityAnalyzer.detect_transaction "w" balNew none 1 := by
  norm_num [ActivityAnalyzer.detect_transaction, balNew]

/-- Erase the clock-derived field of a transaction, for stating determinism
modulo the timestamp. -/
def erase_timestamp (tx : WalletTransaction) : WalletTransaction :=
  { tx with timestamp := 0 }

/-- C9 amended: with the wall-clock reading as an explicit input the detector
is a pure function, and everything about its result except the timestamp
field — including whether a transaction is emitted at all — depends only on
the (snapshot, prior) pair. -/
theorem detect_deterministic_mod_timestamp (w : String) (s : TokenBalance)
    (p : Option TokenState) (t₁ t₂ : Int) :
    (ActivityAnalyzer.detect_transaction w s p t₁).map erase_timestamp =
      (ActivityAnalyzer.detect_transaction w s p t₂).map erase_timestamp := by
  cases p with
  | none =>
    by_cases h : 0 < s.amount <;>
      simp [ActivityAnalyzer.detect_transaction, h, erase_timestamp]
  | some prev =>
    by_cases h : |s.amount - prev.amount| > prev.amount * SIGNIFICANT_CHANGE_THRESHOLD <;>
      simp [ActivityAnalyzer.detect_transaction, h, erase_timestamp]

namespace ActivityAnalyzer

/-- `ActivityAnalyzer.calculate_pnl` (src/activity_analyzer.py lines 104-126).
The non-sell guard (lines 108-109) returns `None` before any storage access.
On every sell path, line 112 calls the async `Storage.get_recent_transactions`
WITHOUT `await`, binding a coroutine object instead of a transaction list, and
the list comprehension at line 113 then iterates that object, raising
`TypeError: 'coroutine' object is not iterable`.  The raise is modelled as the
`Except.error` outcome; the buy filtering and most-recent-buy pricing in the
rest of the function body (lines 113-126) are unreachable. -/
def calculate_pnl (_st : Storage) (transaction : WalletTransaction) :
    Except String (Option Rat) :=
  if transaction.transaction_type ≠ "sell" then .ok none
  else .error "TypeError"

end ActivityAnalyzer

namespace AnalyzerExtended

/-- `AnalyzerExtended.calculate_pnl` (src/analyzer.py lines 209-228): fetches
the wallet's buys of the same token (any chain, limit 100), returns `0.0`
when there are none, and otherwise computes the weighted-average buy price
and prices the whole sale against it. -/
def calculate_pnl (st : Storage) (sell_tx : WalletTransaction) : Rat :=
  let buy_txs :=
    st.get_recent_transactions sell_tx.wallet_address (some sell_tx.token_id) (some "buy") 100
  if buy_txs.isEmpty then 0
  else
    let total_amount := (buy_txs.map (fun t => t.amount_change)).sum
    let total_value := (buy_txs.map (fun t => t.total_value_usd)).sum
    let avg_buy_price := if total_amount > 0 then total_value / total_amount else 0
    (sell_tx.price_usd - avg_buy_price) * |sell_tx.amount_change|

/-- `AnalyzerExtended.calculate_total_pnl` (src/analyzer.py lines 197-207):
iterates over the wallet's recent transactions (default limit 100, newest
first) and accumulates `calculate_pnl` over the sells. -/
def calculate_total_pnl (st : Storage) (wallet_address : String) : Rat :=
  let transactions := st.get_recent_transactions wallet_address none none 100
  transactions.foldl
    (fun total_pnl tx =>
      if tx.transaction_type == "sell" then total_pnl + calculate_pnl st tx else total_pnl) 0

end AnalyzerExtended

/-- First buy lot of the spec's FIFO scenario: quantity 10 at unit price 1. -/
def buyLot1 : WalletTransaction :=
  { wallet_address := "w", token_id := "t", symbol := "T", chain := "eth",
    amount_change := 10, price_usd := 1, total_value_usd := 10,
    transaction_type := "buy", timestamp := 1 }

/-- Second buy lot of the spec's FIFO scenario: quantity 10 at unit price 2. -/
def buyLot2 : WalletTransaction :=
  { wallet_address := "w", token_id := "t", symbol := "T", chain := "eth",
    amount_change := 10, price_usd := 2, total_value_usd := 20,
    transaction_type := "buy", timestamp := 2 }

/-- The sale of the spec's FIFO scenario: quantity 15 at unit price 3. -/
def sellFifo : WalletTransaction :=
  { wallet_address := "w", token_id := "t", symbol := "T", chain := "eth",
    amount_change := 15, price_usd := 3, total_value_usd := 45,
    transaction_type := "sell", timestamp := 3 }

/-- Store holding exactly the two buy lots of the FIFO scenario. -/
def fifoStore : Storage := { token_states := fun _ => none, transactions := [buyLot1, buyLot2] }

/-- An empty store: no token states, no transactions. -/
def emptyStore : Storage := { token_states := fun _ => none, transactions := [] }

/-- A sale of quantity 5 at unit price 10 with no buy history. -/
def sellNoBuys : WalletTransaction :=
  { wallet_address := "w", token_id := "t", symbol := "T", chain := "eth",
    amount_change := 5, price_usd := 10, total_value_usd := 50,
    transaction_type := "sell", timestamp := 1 }

/-- C1 counterexample: on the spec's FIFO scenario (buys of 10 at 1 and 10 at
2, then a sale of 15 at 3) no PnL implementation returns the FIFO value 25:
the averaging variant of analyzer.py returns 22.5, and the variant of
activity_analyzer.py raises TypeError on every sell (its un-awaited async
fetch), so it returns no value at all. -/
theorem pnl_fifo_counterexample :
    AnalyzerExtended.calculate_pnl fifoStore sellFifo ≠ 25 ∧
    ActivityAnalyzer.calculate_pnl fifoStore sellFifo = Except.error "TypeError" := by
  constructor
  · norm_num [AnalyzerExtended.calculate_pnl, Storage.get_recent_transactions, fifoStore,
      buyLot1, buyLot2, sellFifo, matchesQuery, pyLower, ts_desc, abs_of_pos]
  · rfl

/-- C1 amended: on the FIFO scenario, `AnalyzerExtended.calculate_pnl` prices
the whole sale at the weighted-average buy price ((3 - 1.5) * 15 = 22.5),
while `ActivityAnalyzer.calculate_pnl` raises TypeError on every sell — line
112 calls the async `get_recent_transactions` without `await` and line 113
iterates the resulting coroutine; neither implementation returns the FIFO
value 25, and neither performs FIFO lot consumption. -/
theorem pnl_variants_on_fifo_scenario :
    AnalyzerExtended.calculate_pnl fifoStore sellFifo = 45 / 2 ∧
    ActivityAnalyzer.calculate_pnl fifoStore sellFifo = Except.error "TypeError" := by
  constructor
  · norm_num [AnalyzerExtended.calculate_pnl, Storage.get_recent_transactions, fifoStore,
      buyLot1, buyLot2, sellFifo, matchesQuery, pyLower, ts_desc, abs_of_pos]
  · rfl

/-- C2 counterexample: for a sale with no prior buys,
`AnalyzerExtended.calculate_pnl` returns the number `0.0`, not a
distinguishable absent value (its return type has no absent case at all). -/
theorem pnl_ext_zero_on_no_buys :
    AnalyzerExtended.calculate_pnl emptyStore sellNoBuys = 0 := rfl

/-- C2 amended: for every sale with no prior buy of the same wallet and token
in the store, neither PnL computation yields a distinguishable "no PnL
available" result: `AnalyzerExtended.calculate_pnl` returns the number `0.0`
(its return type has no absent case), and `ActivityAnalyzer.calculate_pnl`
raises TypeError on every sell — line 112 calls the async
`get_recent_transactions` without `await` and line 113 iterates the
coroutine — so its `None`-on-no-buys branch is unreachable. -/
theorem pnl_no_buys (st : Storage) (sell : WalletTransaction)
    (hty : sell.transaction_type = "sell")
    (hnb : ∀ t ∈ st.transactions,
      ¬(t.wallet_address = pyLower sell.wallet_address ∧ t.token_id = sell.token_id ∧
        t.transaction_type = "buy")) :
    ActivityAnalyzer.calculate_pnl st sell = Except.error "TypeError" ∧
    AnalyzerExtended.calculate_pnl st sell = 0 := by
  have hfe : st.transactions.filter
      (matchesQuery sell.wallet_address (some sell.token_id) (some "buy")) = [] := by
    rw [List.filter_eq_nil_iff]
    intro t ht hq
    simp only [matchesQuery, Bool.and_eq_true, beq_iff_eq] at hq
    exact hnb t ht ⟨hq.1.1, hq.1.2, hq.2⟩
  constructor
  · simp [ActivityAnalyzer.calculate_pnl, hty]
  · simp only [AnalyzerExtended.calculate_pnl, Storage.get_recent_transactions, hfe]
    simp

/-- C2 witness: the amended statement evaluated on an empty store and a sale
of 5 at price 10. -/
theorem pnl_no_buys_witness :
    ActivityAnalyzer.calculate_pnl emptyStore sellNoBuys = Except.error "TypeError" ∧
    AnalyzerExtended.calculate_pnl emptyStore sellNoBuys = 0 :=
  pnl_no_buys emptyStore sellNoBuys rfl (by simp [emptyStore])

/-- Follows the spec's words, for comparison against the code: total wallet
PnL is the sum of the per-sale PnL over all sell transactions in the wallet's
transaction log, processed in ascending timestamp order. -/
def spec_total_wallet_pnl (st : Storage) (wallet_address : String) : Rat :=
  let wallet_log := st.transactions.filter (fun t => t.wallet_address == pyLower wallet_address)
  let sells := (wallet_log.filter (fun t => t.transaction_type == "sell")).insertionSort ts_asc
  (sells.map (fun t => AnalyzerExtended.calculate_pnl st t)).sum

/-- The sell-accumulating fold of `calculate_total_pnl` computes the sum of
`calculate_pnl` over the sells of the folded list, whatever their order. -/
theorem foldl_pnl_eq_sum (st : Storage) (l : List WalletTransaction) (a : Rat) :
    l.foldl (fun total_pnl tx =>
      if tx.transaction_type == "sell" then total_pnl + AnalyzerExtended.calculate_pnl st tx
      else total_pnl) a
    = a + ((l.filter (fun t => t.transaction_type == "sell")).map
        (fun t => AnalyzerExtended.calculate_pnl st t)).sum := by
  induction l generalizing a with
  | nil => simp
  | cons x xs ih =>
    rw [List.foldl_cons, List.filter_cons, ih]
    by_cases hx : x.transaction_type == "sell"
    · rw [if_pos hx, if_pos hx, List.map_cons, List.sum_cons, add_assoc]
    · rw [if_neg hx, if_neg hx]

/-- C8 amended: whenever the wallet's transaction log holds at most 100
transactions (the query's default LIMIT), the total PnL computed by
`calculate_total_pnl` equals the sum of the per-sale PnL over all sell
transactions in the wallet's log taken in ascending timestamp order; the code
actually iterates in descending timestamp order, which does not change the
total because each per-sale PnL is computed by its own store query and is
independent of the iteration order.  With more than 100 logged transactions
the oldest ones are silently excluded (see the counterexample). -/
theorem calculate_total_pnl_eq_spec (st : Storage) (wallet_address : String)
    (h : (st.transactions.filter
      (fun t => t.wallet_address == pyLower wallet_address)).length ≤ 100) :
    AnalyzerExtended.calculate_total_pnl st wallet_address =
      spec_total_wallet_pnl st wallet_address := by
  have hq : st.transactions.filter (matchesQuery wallet_address none none)
      = st.transactions.filter (fun t => t.wallet_address == pyLower wallet_address) :=
    List.filter_congr (fun t _ => by simp [matchesQuery])
  set l := st.transactions.filter (fun t => t.wallet_address == pyLower wallet_address)
  have htake : (l.insertionSort ts_desc).take 100 = l.insertionSort ts_desc :=
    List.take_of_length_le (by rw [(List.perm_insertionSort ts_desc l).length_eq]; exact h)
  have hperm : List.Perm
      ((l.insertionSort ts_desc).filter (fun t => t.transaction_type == "sell"))
      ((l.filter (fun t => t.transaction_type == "sell")).insertionSort ts_asc) :=
    ((List.perm_insertionSort ts_desc l).filter _).trans
      (List.perm_insertionSort ts_asc _).symm
  simp only [AnalyzerExtended.calculate_total_pnl, spec_total_wallet_pnl,
    Storage.get_recent_transactions]
  rw [hq, htake, foldl_pnl_eq_sum, zero_add]
  exact (hperm.map _).sum_eq

/-- Newest transaction of the overflow scenario: a buy of token "t"
(quantity 1 at price 1) at timestamp 101. -/
def buyNewestT : WalletTransaction :=
  { wallet_address := "w", token_id := "t", symbol := "T", chain := "eth",
    amount_change := 1, price_usd := 1, total_value_usd := 1,
    transaction_type := "buy", timestamp := 101 }

/-- Ninety-nine buys of an unrelated token "u" at timestamps 100 down to 2,
padding the wallet's log beyond the 100-row query limit. -/
def padBuysU : List WalletTransaction :=
  (List.range 99).map (fun i =>
    { wallet_address := "w", token_id := "u", symbol := "U", chain := "eth",
      amount_change := 1, price_usd := 1, total_value_usd := 1,
      transaction_type := "buy", timestamp := (100 : Int) - i })

/-- Oldest transaction of the overflow scenario: a sale of token "t"
(quantity 1 at price 3) at timestamp 1. -/
def oldestSell : WalletTransaction :=
  { wallet_address := "w", token_id := "t", symbol := "T", chain := "eth",
    amount_change := 1, price_usd := 3, total_value_usd := 3,
    transaction_type := "sell", timestamp := 1 }

/-- A wallet log of 101 transactions: the query limit of 100 excludes the
oldest one, which is the only sale. -/
def overflowStore : Storage :=
  { token_states := fun _ => none, transactions := buyNewestT :: padBuysU ++ [oldestSell] }

/-- C8 counterexample: with 101 transactions in the wallet's log,
`calculate_total_pnl` reads only the 100 most recent rows, misses the oldest
sale, and returns 0, while the sum of the per-sale PnL over all sell
transactions of the log is 2 — the totals differ, refuting the claim as
stated. -/
theorem total_pnl_limit_counterexample :
    AnalyzerExtended.calculate_total_pnl overflowStore "w" ≠
      spec_total_wallet_pnl overflowStore "w" := by
  have hlhs : AnalyzerExtended.calculate_total_pnl overflowStore "w" = 0 := by decide
  have hsells : (overflowStore.transactions.filter
      (fun t => t.wallet_address == pyLower "w")).filter
      (fun t => t.transaction_type == "sell") = [oldestSell] := by decide
  have hbuys : Storage.get_recent_transactions overflowStore "w" (some "t") (some "buy") 100
      = [buyNewestT] := by decide
  have hrhs : spec_total_wallet_pnl overflowStore "w" = 2 := by
    simp only [spec_total_wallet_pnl, hsells]
    have hsort : List.insertionSort ts_asc [oldestSell] = [oldestSell] := rfl
    rw [hsort, List.map_cons, List.map_nil, List.sum_cons, List.sum_nil]
    simp only [AnalyzerExtended.calculate_pnl, oldestSell]
    rw [hbuys]
    norm_num [buyNewestT]
  rw [hlhs, hrhs]
  norm_num

/-- A wallet log holding the FIFO scenario's two buys and the sale itself. -/
def totalStore : Storage :=
  { token_states := fun _ => none, transactions := [buyLot1, buyLot2, sellFifo] }

/-- C8 witness: the amended statement evaluated on a three-transaction log. -/
theorem calculate_total_pnl_eq_spec_witness :
    AnalyzerExtended.calculate_total_pnl totalStore "w" =
      spec_total_wallet_pnl totalStore "w" :=
  calculate_total_pnl_eq_spec totalStore "w" (by decide)

namespace ActivityAnalyzer

/-- `ActivityAnalyzer.analyze_wallet` (src/activity_analyzer.py lines 11-49),
threaded over an explicit store.  The loop walks exactly the balances of the
current snapshot list.  In the source, line 28 calls the async
`Storage.get_token_state` without `await`, so the real pass hands a coroutine
to `_detect_transaction` as `prev_state` and raises TypeError there at the
first balance, before any write (the un-awaited `update_token_state` at line
40 never runs, and the `record_transaction` method called at line 37 does not
even exist on `Storage`): on a nonempty snapshot list the real pass aborts
having written nothing, and on an empty list it completes with no detected
transactions.  The model below instead executes the loop body as written with
the storage calls awaited — read the prior state, run the detector, abort at
a detected transaction (`Except.error` carrying the store mutated so far),
and upsert that token's state otherwise.  It performs a superset of the store
effects of the real pass, so a frame property proved over this model covers
the real pass a fortiori. -/
def analyze_wallet (wallet_address : String) (current_balances : List TokenBalance)
    (st : Storage) (now : Int) : Except Storage (List WalletTransaction × Storage) :=
  match current_balances with
  | [] => .ok ([], st)
  | balance :: rest =>
    let prev_state := st.get_token_state wallet_address balance.id balance.chain
    match detect_transaction wallet_address balance prev_state now with
    | some _ => .error st
    | none =>
      analyze_wallet wallet_address rest
        (st.update_token_state wallet_address balance.id balance.symbol balance.chain
          balance.amount balance.price now) now

end ActivityAnalyzer

/-- C10: a token that has stored state for the wallet but is absent from the
current snapshot list is untouched by one analysis pass: whether the pass
completes or aborts, no transaction for that token is emitted, its stored
state is unchanged and the transaction log is unchanged — the pass only
iterates over tokens present in the snapshot list. -/
theorem analyze_wallet_frame (wallet_address : String) (current_balances : List TokenBalance)
    (st : Storage) (now : Int) (tid chain : String)
    (habsent : ∀ b ∈ current_balances, ¬(b.id = tid ∧ b.chain = chain)) :
    (∀ txs st', ActivityAnalyzer.analyze_wallet wallet_address current_balances st now
        = .ok (txs, st') →
      (∀ tx ∈ txs, ¬(tx.token_id = tid ∧ tx.chain = chain)) ∧
      st'.get_token_state wallet_address tid chain
        = st.get_token_state wallet_address tid chain ∧
      st'.transactions = st.transactions) ∧
    (∀ st', ActivityAnalyzer.analyze_wallet wallet_address current_balances st now
        = .error st' →
      st'.get_token_state wallet_address tid chain
        = st.get_token_state wallet_address tid chain ∧
      st'.transactions = st.transactions) := by
  induction current_balances generalizing st with
  | nil =>
    constructor
    · intro txs st' hok
      simp only [ActivityAnalyzer.analyze_wallet] at hok
      cases hok
      exact ⟨by simp, rfl, rfl⟩
    · intro st' herr
      simp only [ActivityAnalyzer.analyze_wallet] at herr
      cases herr
  | cons b rest ih =>
    have hb := habsent b (List.mem_cons_self b rest)
    have hrest : ∀ x ∈ rest, ¬(x.id = tid ∧ x.chain = chain) :=
      fun x hx => habsent x (List.mem_cons_of_mem b hx)
    have hkey : ∀ st0 : Storage,
        (st0.update_token_state wallet_address b.id b.symbol b.chain
          b.amount b.price now).get_token_state wallet_address tid chain
          = st0.get_token_state wallet_address tid chain := by
      intro st0
      simp only [Storage.update_token_state, Storage.get_token_state]
      rw [if_neg]
      intro hEq
      simp only [Prod.mk.injEq] at hEq
      exact hb ⟨hEq.2.1.symm, hEq.2.2.symm⟩
    have htr : ∀ st0 : Storage,
        (st0.update_token_state wallet_address b.id b.symbol b.chain
          b.amount b.price now).transactions = st0.transactions := fun _ => rfl
    constructor
    · intro txs st' hok
      simp only [ActivityAnalyzer.analyze_wallet] at hok
      cases hdet : ActivityAnalyzer.detect_transaction wallet_address b
          (st.get_token_state wallet_address b.id b.chain) now with
      | some tx =>
        rw [hdet] at hok
        cases hok
      | none =>
        rw [hdet] at hok
        obtain ⟨h1, h2, h3⟩ := (ih _ hrest).1 txs st' hok
        exact ⟨h1, h2.trans (hkey st), h3.trans (htr st)⟩
    · intro st' herr
      simp only [ActivityAnalyzer.analyze_wallet] at herr
      cases hdet : ActivityAnalyzer.detect_transaction wallet_address b
          (st.get_token_state wallet_address b.id b.chain) now with
      | some tx =>
        rw [hdet] at herr
        cases herr
        exact ⟨rfl, rfl⟩
      | none =>
        rw [hdet] at herr
        obtain ⟨h2, h3⟩ := (ih _ hrest).2 st' herr
        exact ⟨h2.trans (hkey st), h3.trans (htr st)⟩

/-- Stored state for the token "old" used by the frame witness. -/
def stateOld : TokenState := { symbol := "O", amount := 5, price_usd := 2, last_updated := 0 }

/-- A store that tracks token "old" on chain "eth" for wallet "w" and has an
empty transaction log. -/
def storeOld : Storage :=
  { token_states := fun k => if k = ("w", "old", "eth") then some stateOld else none,
    transactions := [] }

/-- C10 witness: one pass over a snapshot list holding only the zero-quantity
token "t" leaves the stored state of the absent token "old" and the
transaction log unchanged. -/
theorem analyze_wallet_frame_witness :
    (∀ tx ∈ ([] : List WalletTransaction), ¬(tx.token_id = "old" ∧ tx.chain = "eth")) ∧
    (Storage.update_token_state storeOld "w" "t" "T" "eth" 0 100 7).get_token_state
        "w" "old" "eth" = storeOld.get_token_state "w" "old" "eth" ∧
    (Storage.update_token_state storeOld "w" "t" "T" "eth" 0 100 7).transactions
      = storeOld.transactions :=
  (analyze_wallet_frame "w" [balZero] storeOld 7 "old" "eth" (by decide)).1 []
    (Storage.update_token_state storeOld "w" "t" "T" "eth" 0 100 7) rfl
